import Mathlib

/-!
Verification of the conversation-orchestration core of `aibot.py`:
the delivery policy (`process_message`), the input controller
(`get_message`, `get_multiline_message`) and the session state machine
(`flow_conversation`), shallowly embedded in Lean.

Modelling conventions:
  * Standard input is a `List String` of raw lines; `input()` consumes the head.
  * `api.prompt` is a parameter: the greeting call is one `SendResult`
    (`FlowConfig.sendNew`), and an ordinary delivery is a function
    `String → Nat → SendResult` from the message and the 1-indexed attempt
    number to that attempt's result, so retry-varying transports are expressible.
  * Python exceptions `ConnectionError`/`TimeoutError` are `SendResult.connFailure`,
    any other exception is `SendResult.otherFailure`.
  * Console rendering and logging are recorded as a trace of `Event`s; terminal
    text wrapping (`format_text_block`) is an external renderer concern and the
    raw message text is recorded instead.
  * Python `str.strip()` / `str.lower()` / `str.upper()` are `pyStrip` /
    `pyLower` / `pyUpper` below (character-level, with Python's whitespace
    set); `"\n".join` is `String.intercalate "\n"`.
-/

namespace Aibot

/-- Python's `str.strip()` whitespace set: space, tab, newline, carriage
return, vertical tab, form feed. -/
def isPySpace (c : Char) : Bool :=
  c = ' ' || c = '\t' || c = '\n' || c = '\r' || c = '\x0b' || c = '\x0c'

/-- Python `str.strip()`: drop whitespace from both ends. -/
def pyStrip (s : String) : String :=
  ⟨((s.data.dropWhile isPySpace).reverse.dropWhile isPySpace).reverse⟩

/-- Python `str.lower()` (ASCII case mapping suffices for the tokens compared). -/
def pyLower (s : String) : String :=
  ⟨s.data.map Char.toLower⟩

/-- Python `str.upper()` (ASCII case mapping suffices for the tokens compared). -/
def pyUpper (s : String) : String :=
  ⟨s.data.map Char.toUpper⟩

/-- The remote service's response, as `handle_response` inspects it:
either a dict (modelled as an association list of fields) or a non-dict value. -/
inductive Reply where
  | dict (fields : List (String × String))
  | nonDict
deriving DecidableEq, Repr

/-- Result of one `api.prompt` call: a normal return, a `ConnectionError`/
`TimeoutError`, or any other exception. -/
inductive SendResult where
  | ok (r : Reply)
  | connFailure (e : String)
  | otherFailure (e : String)
deriving DecidableEq, Repr

/-- Observable events: rendered output and log records, in order. -/
inductive Event where
  | renderMessage (text : String)
  | renderUnexpectedFormat
  | warnRetry (e : String) (attempt retries : Nat)
  | errorUnexpected (e : String)
  | errorExhausted (retries : Nat)
  | errorStartFailed (e : String)
  | startConversation
  | switchedToMultiline
  | exitPrompt
  | endConversation
  | invalidNotice
  | deliver (message : String)
deriving DecidableEq, Repr

/-- `"message" in response` for a dict response; `False` for a non-dict. -/
def Reply.hasMessageField : Reply → Bool
  | .dict fields => (fields.lookup "message").isSome
  | .nonDict => false

/-- `handle_response`: renders the `message` field of a dict response, or the
"Unexpected response format." notice otherwise; never raises. -/
def handle_response : Reply → Event
  | .dict fields =>
    match fields.lookup "message" with
    | some m => .renderMessage m
    | none => .renderUnexpectedFormat
  | .nonDict => .renderUnexpectedFormat

/-- Final classification of one `process_message` run. -/
inductive Outcome where
  | completed (r : Reply)
  | fatal (e : String)
  | exhausted
deriving DecidableEq, Repr

/-- One `process_message` run: number of `api.prompt` calls made, number of
`time.sleep` calls made, the event trace, and the outcome. -/
structure DeliveryTrace where
  attempts : Nat
  sleeps : Nat
  events : List Event
  outcome : Outcome
deriving DecidableEq, Repr

/-- The body of `process_message`'s `for attempt in range(1, retries + 1)` loop
with `for ... else`: `attempt` is the current 1-indexed attempt, `rem` the
number of loop iterations left.  Success and non-connectivity failures `break`;
connectivity failures warn, sleep and continue; a completed loop logs the
exhaustion error. -/
def processAux (send : Nat → SendResult) (retries : Nat) : Nat → Nat → DeliveryTrace
  | _, 0 => ⟨0, 0, [.errorExhausted retries], .exhausted⟩
  | attempt, rem + 1 =>
    match send attempt with
    | .ok r => ⟨1, 0, [handle_response r], .completed r⟩
    | .connFailure e =>
      let t := processAux send retries (attempt + 1) rem
      ⟨t.attempts + 1, t.sleeps + 1, .warnRetry e attempt retries :: t.events, t.outcome⟩
    | .otherFailure e => ⟨1, 0, [.errorUnexpected e], .fatal e⟩

/-- `process_message(api, message, retries, delay)`: attempts `api.prompt(message)`
up to `retries` times, starting at attempt 1. -/
def process_message (send : String → Nat → SendResult) (message : String)
    (retries : Nat) : DeliveryTrace :=
  processAux (send message) retries 1 retries

/-- `get_message`: reads one line and strips it. -/
def get_message (line : String) : String :=
  pyStrip line

/-- The `while True` loop of `get_multiline_message`: consume lines until one
whose stripped uppercase form is `"END"` (discarded); `none` models stdin
running out with no sentinel (`input()` raising `EOFError`). -/
def captureLines : List String → Option (List String × List String)
  | [] => none
  | line :: rest =>
    if pyUpper (pyStrip line) = "END" then some ([], rest)
    else
      match captureLines rest with
      | none => none
      | some (ls, rem) => some (line :: ls, rem)

/-- `get_multiline_message`: the captured lines joined with newlines and
stripped at the outer edges, plus the unconsumed input. -/
def get_multiline_message (input : List String) : Option (String × List String) :=
  match captureLines input with
  | none => none
  | some (ls, rest) => some (pyStrip (String.intercalate "\n" ls), rest)

/-- The two mutable session flags of `flow_conversation`. -/
structure SessionState where
  conversation_started : Bool
  multiline_mode : Bool
deriving DecidableEq, Repr

/-- The transport behavior a `flow_conversation` run is parametrized by:
the greeting call's result, the per-message per-attempt results, and the
retry budget (`retries = 3` in the source defaults). -/
structure FlowConfig where
  sendNew : SendResult
  send : String → Nat → SendResult
  retries : Nat

/-- `start_new_conversation`: renders the greeting reply, or — since every
exception is caught inside it — logs "Unable to start a new conversation"
and returns normally. -/
def start_new_conversation (sendNew : SendResult) : List Event :=
  match sendNew with
  | .ok r => [handle_response r]
  | .connFailure e => [.errorStartFailed e]
  | .otherFailure e => [.errorStartFailed e]

/-- Result of one iteration of `flow_conversation`'s `while True` loop:
continue with a new state and remaining input, `break` out of the loop,
or run out of stdin. -/
inductive StepOut where
  | next (s : SessionState) (rest : List String) (events : List Event)
  | halt (rest : List String) (events : List Event)
  | eof (events : List Event)
deriving DecidableEq, Repr

/-- Prefix a step's event trace with earlier events of the same iteration. -/
def prependEvents (pre : List Event) : StepOut → StepOut
  | .next s rest evs => .next s rest (pre ++ evs)
  | .halt rest evs => .halt rest (pre ++ evs)
  | .eof evs => .eof (pre ++ evs)

/-- Lines 142-152 of the source: the `if`/`elif` chain applied to the
obtained `message` (the state `s` passed in already reflects the
multiline-mode reset of line 140 when it applies). -/
def dispatch (cfg : FlowConfig) (s : SessionState) (message : String)
    (rest : List String) : StepOut :=
  if pyLower message = "exit" then
    match rest with
    | [] => .eof [.exitPrompt]
    | confirm :: rest2 =>
      if pyLower (get_message confirm) = "yes" then
        .halt rest2 [.exitPrompt, .endConversation]
      else
        .next s rest2 [.exitPrompt]
  else if pyLower message = "newchat" then
    .next { s with conversation_started := false } rest []
  else if message ≠ "" then
    .next s rest (.deliver message :: (process_message cfg.send message cfg.retries).events)
  else
    .next s rest [.invalidNotice]

/-- Lines 132-152 of the source: one loop iteration after the
`conversation_started` block, so `s.conversation_started = true` here.
In single-line mode the `multiline` toggle is recognized before the
command chain; in multiline mode the captured block goes straight to the
command chain with `multiline_mode` reset to `false`. -/
def flowBody (cfg : FlowConfig) (s : SessionState) (input : List String) : StepOut :=
  if s.multiline_mode = false then
    match input with
    | [] => .eof []
    | line :: rest =>
      if pyLower (get_message line) = "multiline" then
        .next { s with multiline_mode := true } rest [.switchedToMultiline]
      else
        dispatch cfg s (get_message line) rest
  else
    match get_multiline_message input with
    | none => .eof []
    | some (message, rest) =>
      dispatch cfg { s with multiline_mode := false } message rest

/-- One full iteration of `flow_conversation`'s loop, lines 126-152: if no
conversation is started, the greeting runs first (its events prefix the
trace) and `conversation_started` is set to `True` unconditionally. -/
def flowStep (cfg : FlowConfig) (s : SessionState) (input : List String) : StepOut :=
  if s.conversation_started then
    flowBody cfg s input
  else
    prependEvents (.startConversation :: start_new_conversation cfg.sendNew)
      (flowBody cfg { s with conversation_started := true } input)

/-- A concrete transport configuration for closed evaluations: the greeting
and every delivery succeed with a well-formed reply. -/
def cfg0 : FlowConfig :=
  ⟨.ok (.dict [("message", "hello")]), fun _ _ => .ok (.dict [("message", "reply")]), 3⟩

/-- The logical input one iteration consumes before the command chain:
one stripped line in single-line mode, a multiline capture otherwise. -/
def readLogical (s : SessionState) (input : List String) : Option (String × List String) :=
  if s.multiline_mode = false then
    match input with
    | [] => none
    | line :: rest => some (get_message line, rest)
  else get_multiline_message input

theorem handle_response_of_no_message_field (r : Reply) (h : r.hasMessageField = false) :
    handle_response r = .renderUnexpectedFormat := by
  cases r with
  | dict fields =>
    simp only [Reply.hasMessageField] at h
    cases hl : List.lookup "message" fields with
    | none => simp [handle_response, hl]
    | some m => rw [hl] at h; simp at h
  | nonDict => rfl

/-- C3: with a transport whose every call raises a connectivity/timeout
failure and `retries = 3`, `process_message` makes exactly 3 attempts (no
more, no fewer), the outcome is exhaustion, and the trace ends with the
exhaustion error event, a constructor distinct from the three per-attempt
warning events. -/
theorem exhausted_after_three_connectivity_failures
    (send : String → Nat → SendResult) (message : String) (e : Nat → String)
    (h : ∀ n, send message n = .connFailure (e n)) :
    process_message send message 3 =
      ⟨3, 3, [.warnRetry (e 1) 1 3, .warnRetry (e 2) 2 3, .warnRetry (e 3) 3 3,
              .errorExhausted 3], .exhausted⟩ := by
  simp [process_message, processAux, h]

/-- C3 witness: a concrete always-failing transport. -/
theorem exhausted_after_three_connectivity_failures_witness :
    process_message (fun _ _ => .connFailure "netdown") "ping" 3 =
      ⟨3, 3, [.warnRetry "netdown" 1 3, .warnRetry "netdown" 2 3, .warnRetry "netdown" 3 3,
              .errorExhausted 3], .exhausted⟩ :=
  exhausted_after_three_connectivity_failures (fun _ _ => .connFailure "netdown") "ping"
    (fun _ => "netdown") (fun _ => rfl)

/-- C4: for every message and every `retries ≥ 1`, a non-connectivity
failure on the first attempt makes exactly 1 attempt, is classified fatal
(`errorUnexpected` log, fatal outcome), consumes no further attempts and
never sleeps. -/
theorem fatal_failure_aborts_first_attempt
    (send : String → Nat → SendResult) (message : String) (retries : Nat) (e : String)
    (hr : 1 ≤ retries) (h : send message 1 = .otherFailure e) :
    process_message send message retries = ⟨1, 0, [.errorUnexpected e], .fatal e⟩ := by
  obtain ⟨rem, rfl⟩ : ∃ rem, retries = rem + 1 :=
    ⟨retries - 1, (Nat.succ_pred_eq_of_pos hr).symm⟩
  simp [process_message, processAux, h]

/-- C4 witness: a concrete fatally-failing transport with `retries = 3`. -/
theorem fatal_failure_aborts_first_attempt_witness :
    1 ≤ 3 ∧ process_message (fun _ _ => .otherFailure "bad") "m" 3 =
      ⟨1, 0, [.errorUnexpected "bad"], .fatal "bad"⟩ :=
  ⟨by decide, fatal_failure_aborts_first_attempt (fun _ _ => .otherFailure "bad") "m" 3 "bad"
    (by decide) rfl⟩

/-- C5: with a transport that raises one connectivity failure and then
succeeds on the 2nd attempt, `process_message` with `retries = 3` makes
exactly 2 attempts and completes with the reply immediately: no third
attempt and only the single sleep after the first failure. -/
theorem success_on_second_attempt
    (send : String → Nat → SendResult) (message : String) (e : String) (r : Reply)
    (h1 : send message 1 = .connFailure e) (h2 : send message 2 = .ok r) :
    process_message send message 3 =
      ⟨2, 1, [.warnRetry e 1 3, handle_response r], .completed r⟩ := by
  simp [process_message, processAux, h1, h2]

/-- C5 witness: a concrete transport failing once then succeeding. -/
theorem success_on_second_attempt_witness :
    process_message (fun _ n => if n = 1 then .connFailure "t" else .ok (.dict [("message", "hi")])) "m" 3 =
      ⟨2, 1, [.warnRetry "t" 1 3, .renderMessage "hi"], .completed (.dict [("message", "hi")])⟩ :=
  success_on_second_attempt
    (fun _ n => if n = 1 then .connFailure "t" else .ok (.dict [("message", "hi")])) "m"
    "t" (.dict [("message", "hi")]) rfl rfl

/-- C9: when the send call returns normally but the reply lacks a
`"message"` field (or is not a dict), the unexpected-format notice is
rendered without raising, the retry loop stops after that single attempt
(no retry consumed), and the outcome is completion — neither a transport
failure classification nor exhaustion. -/
theorem unexpected_format_completes_delivery
    (send : String → Nat → SendResult) (message : String) (retries : Nat) (r : Reply)
    (hr : 1 ≤ retries) (h : send message 1 = .ok r) (hf : r.hasMessageField = false) :
    process_message send message retries =
      ⟨1, 0, [.renderUnexpectedFormat], .completed r⟩ := by
  obtain ⟨rem, rfl⟩ : ∃ rem, retries = rem + 1 :=
    ⟨retries - 1, (Nat.succ_pred_eq_of_pos hr).symm⟩
  simp [process_message, processAux, h, handle_response_of_no_message_field r hf]

/-- C9 witness: a dict reply without a `"message"` field. -/
theorem unexpected_format_completes_delivery_witness :
    1 ≤ 3 ∧ (Reply.dict [("status", "ok")]).hasMessageField = false ∧
    process_message (fun _ _ => .ok (.dict [("status", "ok")])) "m" 3 =
      ⟨1, 0, [.renderUnexpectedFormat], .completed (.dict [("status", "ok")])⟩ :=
  ⟨by decide, by decide,
    unexpected_format_completes_delivery (fun _ _ => .ok (.dict [("status", "ok")])) "m" 3
      (.dict [("status", "ok")]) (by decide) rfl (by decide)⟩

theorem captureLines_append (ls : List String) (sentinel : String) (rest : List String)
    (hls : ∀ l ∈ ls, pyUpper (pyStrip l) ≠ "END") (hs : pyUpper (pyStrip sentinel) = "END") :
    captureLines (ls ++ sentinel :: rest) = some (ls, rest) := by
  induction ls with
  | nil => simp [captureLines, hs]
  | cons head tail ih =>
    have hh : pyUpper (pyStrip head) ≠ "END" := hls head (by simp)
    have ih2 := ih (fun l hl => hls l (by simp [hl]))
    simp [captureLines, hh, ih2]

theorem get_multiline_message_append (ls : List String) (sentinel : String)
    (rest : List String)
    (hls : ∀ l ∈ ls, pyUpper (pyStrip l) ≠ "END") (hs : pyUpper (pyStrip sentinel) = "END") :
    get_multiline_message (ls ++ sentinel :: rest) =
      some (pyStrip (String.intercalate "\n" ls), rest) := by
  simp [get_multiline_message, captureLines_append ls sentinel rest hls hs]

theorem dispatch_next_state (cfg : FlowConfig) (s : SessionState) (message : String)
    (rest : List String) (s2 : SessionState) (rest2 : List String) (evs : List Event)
    (h : dispatch cfg s message rest = .next s2 rest2 evs) :
    s2 = s ∨ (s2 = { s with conversation_started := false } ∧ pyLower message = "newchat") := by
  unfold dispatch at h
  by_cases he : pyLower message = "exit"
  · rw [if_pos he] at h
    cases rest with
    | nil => simp at h
    | cons confirm rest3 =>
      by_cases hy : pyLower (get_message confirm) = "yes"
      · simp [hy] at h
      · simp only [hy, if_false, StepOut.next.injEq, reduceIte] at h
        exact Or.inl h.1.symm
  · rw [if_neg he] at h
    by_cases hn : pyLower message = "newchat"
    · rw [if_pos hn] at h
      rw [StepOut.next.injEq] at h
      exact Or.inr ⟨h.1.symm, hn⟩
    · rw [if_neg hn] at h
      by_cases hne : message ≠ ""
      · rw [if_pos hne] at h
        rw [StepOut.next.injEq] at h
        exact Or.inl h.1.symm
      · rw [if_neg hne] at h
        rw [StepOut.next.injEq] at h
        exact Or.inl h.1.symm

theorem handle_response_ne_startConversation (r : Reply) :
    handle_response r ≠ .startConversation := by
  cases r with
  | dict fields => cases hl : List.lookup "message" fields <;> simp [handle_response, hl]
  | nonDict => simp [handle_response]

theorem startConversation_notin_processAux (send : Nat → SendResult) (retries : Nat) :
    ∀ rem attempt, Event.startConversation ∉ (processAux send retries attempt rem).events := by
  intro rem
  induction rem with
  | zero => intro attempt; simp [processAux]
  | succ n ih =>
    intro attempt
    simp only [processAux]
    cases hs : send attempt with
    | ok r => simp [(handle_response_ne_startConversation r).symm]
    | connFailure e =>
      simp only [List.mem_cons, not_or]
      exact ⟨by simp, ih (attempt + 1)⟩
    | otherFailure e => simp

theorem startConversation_notin_dispatch (cfg : FlowConfig) (s : SessionState)
    (message : String) (rest : List String) (s2 : SessionState) (rest2 : List String)
    (evs : List Event) (h : dispatch cfg s message rest = .next s2 rest2 evs) :
    Event.startConversation ∉ evs := by
  unfold dispatch at h
  by_cases he : pyLower message = "exit"
  · rw [if_pos he] at h
    cases rest with
    | nil => simp at h
    | cons confirm rest3 =>
      by_cases hy : pyLower (get_message confirm) = "yes"
      · simp [hy] at h
      · simp only [hy, if_false, StepOut.next.injEq, reduceIte] at h
        rw [← h.2.2]; simp
  · rw [if_neg he] at h
    by_cases hn : pyLower message = "newchat"
    · rw [if_pos hn] at h
      rw [StepOut.next.injEq] at h
      rw [← h.2.2]; simp
    · rw [if_neg hn] at h
      by_cases hne : message ≠ ""
      · rw [if_pos hne] at h
        rw [StepOut.next.injEq] at h
        rw [← h.2.2]
        simp only [List.mem_cons, not_or]
        exact ⟨by simp, startConversation_notin_processAux (cfg.send message) cfg.retries
          cfg.retries 1⟩
      · rw [if_neg hne] at h
        rw [StepOut.next.injEq] at h
        rw [← h.2.2]; simp

theorem flowBody_next_multiline (cfg : FlowConfig) (s : SessionState) (input : List String)
    (s2 : SessionState) (rest2 : List String) (evs : List Event)
    (hm : s.multiline_mode = true)
    (h : flowBody cfg s input = .next s2 rest2 evs) : s2.multiline_mode = false := by
  unfold flowBody at h
  rw [hm] at h
  simp only [Bool.true_eq_false, if_false, reduceIte] at h
  cases hg : get_multiline_message input with
  | none => rw [hg] at h; simp at h
  | some p =>
    rw [hg] at h
    obtain ⟨message, rest⟩ := p
    rcases dispatch_next_state cfg { s with multiline_mode := false } message rest
        s2 rest2 evs h with h1 | h1
    · rw [h1]
    · rw [h1.1]

theorem flowStep_as_flowBody (cfg : FlowConfig) (s : SessionState) (input : List String)
    (hc : s.conversation_started = true) :
    flowStep cfg s input = flowBody cfg s input := by
  unfold flowStep
  rw [hc]
  simp

theorem flowStep_next_multiline (cfg : FlowConfig) (s : SessionState) (input : List String)
    (s2 : SessionState) (rest2 : List String) (evs : List Event)
    (hm : s.multiline_mode = true)
    (h : flowStep cfg s input = .next s2 rest2 evs) : s2.multiline_mode = false := by
  unfold flowStep at h
  cases hc : s.conversation_started with
  | true =>
    rw [hc] at h
    simp only [if_true, reduceIte] at h
    exact flowBody_next_multiline cfg s input s2 rest2 evs hm h
  | false =>
    rw [hc] at h
    simp only [Bool.false_eq_true, if_false, reduceIte] at h
    cases hb : flowBody cfg { s with conversation_started := true } input with
    | next s3 r3 e3 =>
      rw [hb] at h
      simp only [prependEvents, StepOut.next.injEq] at h
      rw [← h.1]
      exact flowBody_next_multiline cfg { s with conversation_started := true } input
        s3 r3 e3 hm hb
    | halt r3 e3 => rw [hb] at h; simp [prependEvents] at h
    | eof e3 => rw [hb] at h; simp [prependEvents] at h

theorem dispatch_empty_message (cfg : FlowConfig) (s : SessionState) (rest : List String) :
    dispatch cfg s "" rest = .next s rest [.invalidNotice] := by
  unfold dispatch
  rw [if_neg (by decide), if_neg (by decide), if_neg (by decide)]

/-- C6: in single-line mode, typing `exit` reaches loop termination only
when the (stripped, lowercased) confirmation is `"yes"`: any other
confirmation leaves the session active in single-line mode with no other
action than the confirmation prompt, while a `"yes"` in any case ends the
loop. -/
theorem exit_command_needs_yes_confirmation
    (cfg : FlowConfig) (line confirm : String) (rest : List String)
    (hline : pyLower (pyStrip line) = "exit") :
    (pyLower (pyStrip confirm) ≠ "yes" →
      flowStep cfg ⟨true, false⟩ (line :: confirm :: rest) =
        .next ⟨true, false⟩ rest [.exitPrompt]) ∧
    (pyLower (pyStrip confirm) = "yes" →
      flowStep cfg ⟨true, false⟩ (line :: confirm :: rest) =
        .halt rest [.exitPrompt, .endConversation]) := by
  have hml : pyLower (pyStrip line) ≠ "multiline" := by rw [hline]; decide
  constructor
  · intro hc
    simp [flowStep, flowBody, dispatch, get_message, hline, hml, hc]
  · intro hc
    simp [flowStep, flowBody, dispatch, get_message, hline, hml, hc]

/-- C6 witness: `exit` then `"no"` stays active; ` EXIT ` then `"YES"`
terminates. -/
theorem exit_command_needs_yes_confirmation_witness :
    flowStep cfg0 ⟨true, false⟩ ["exit", "no"] = .next ⟨true, false⟩ [] [.exitPrompt] ∧
    flowStep cfg0 ⟨true, false⟩ [" EXIT ", "YES", "z"] =
      .halt ["z"] [.exitPrompt, .endConversation] :=
  ⟨(exit_command_needs_yes_confirmation cfg0 "exit" "no" [] (by decide)).1 (by decide),
   (exit_command_needs_yes_confirmation cfg0 " EXIT " "YES" ["z"] (by decide)).2 (by decide)⟩

/-- C7: a multiline capture ending in a sentinel line (stripped,
uppercased `"END"`, discarded) returns the non-sentinel lines joined by
newline with only the outer edges stripped, and any multiline-mode
iteration that continues the loop leaves the session back in single-line
mode, whatever the message and its delivery did. -/
theorem multiline_capture_spec_and_mode_reversion
    (cfg : FlowConfig) (ls : List String) (sentinel : String) (rest : List String)
    (hls : ∀ l ∈ ls, pyUpper (pyStrip l) ≠ "END")
    (hs : pyUpper (pyStrip sentinel) = "END") :
    get_multiline_message (ls ++ sentinel :: rest) =
      some (pyStrip (String.intercalate "\n" ls), rest) ∧
    ∀ s input s2 rest2 evs, s.multiline_mode = true →
      flowStep cfg s input = .next s2 rest2 evs → s2.multiline_mode = false :=
  ⟨get_multiline_message_append ls sentinel rest hls hs,
   fun s input s2 rest2 evs hm h => flowStep_next_multiline cfg s input s2 rest2 evs hm h⟩

/-- C7 witness: interior blank line preserved, outer edges stripped,
sentinel matched case-insensitively and discarded. -/
theorem multiline_capture_spec_witness :
    pyUpper (pyStrip " End ") = "END" ∧
    get_multiline_message ["a", "", "b", " End ", "x"] = some ("a\n\nb", ["x"]) :=
  ⟨by decide, (multiline_capture_spec_and_mode_reversion cfg0 ["a", "", "b"] " End " ["x"]
    (by decide) (by decide)).1⟩

/-- C10: in single-line mode a line whose stripped value case-insensitively
equals `"END"` is not a command, not a sentinel and not invalid input: it is
forwarded to the delivery policy as an ordinary non-empty message. -/
theorem single_line_end_is_ordinary_message
    (cfg : FlowConfig) (line : String) (rest : List String)
    (h : pyLower (pyStrip line) = "end") :
    flowStep cfg ⟨true, false⟩ (line :: rest) =
      .next ⟨true, false⟩ rest
        (.deliver (pyStrip line) ::
          (process_message cfg.send (pyStrip line) cfg.retries).events) := by
  have h1 : pyLower (pyStrip line) ≠ "multiline" := by rw [h]; decide
  have h2 : pyLower (pyStrip line) ≠ "exit" := by rw [h]; decide
  have h3 : pyLower (pyStrip line) ≠ "newchat" := by rw [h]; decide
  have h4 : pyStrip line ≠ "" := by
    intro he
    rw [he] at h
    exact absurd h (by decide)
  simp [flowStep, flowBody, dispatch, get_message, h1, h2, h3, h4]

/-- C10 witness: the literal line `"End"` is delivered as a message. -/
theorem single_line_end_is_ordinary_message_witness :
    flowStep cfg0 ⟨true, false⟩ ["End"] =
      .next ⟨true, false⟩ [] [.deliver "End", .renderMessage "reply"] := by
  rw [single_line_end_is_ordinary_message cfg0 "End" [] (by decide)]
  decide

/-- C1 counterexample: in multiline mode the captured block `"exit"` is not
forwarded as message text — the session runs the exit command: with
confirmation `"yes"` on the next line the loop terminates, delivering
nothing. -/
theorem multiline_exit_block_runs_exit_command :
    flowStep cfg0 ⟨true, true⟩ ["exit", "END", "yes"] =
      .halt [] [.exitPrompt, .endConversation] := by
  decide

/-- C1 amended: a multiline capture is forwarded to the delivery policy as
a single message exactly when its text, lowercased, is neither `"exit"` nor
`"newchat"` and it is non-empty; in particular a block equal to
`"multiline"` is message text, but `"exit"`/`"newchat"` blocks are executed
as commands. -/
theorem multiline_block_forwarded_unless_command
    (cfg : FlowConfig) (input rest : List String) (message : String)
    (hcap : get_multiline_message input = some (message, rest))
    (hexit : pyLower message ≠ "exit") (hnew : pyLower message ≠ "newchat")
    (hne : message ≠ "") :
    flowStep cfg ⟨true, true⟩ input =
      .next ⟨true, false⟩ rest
        (.deliver message :: (process_message cfg.send message cfg.retries).events) := by
  simp [flowStep, flowBody, dispatch, hcap, hexit, hnew, hne]

/-- C1 amended witness: a multiline block reading `"multiline"` is
delivered as message text. -/
theorem multiline_block_forwarded_unless_command_witness :
    flowStep cfg0 ⟨true, true⟩ ["multiline", "END"] =
      .next ⟨true, false⟩ [] [.deliver "multiline", .renderMessage "reply"] := by
  rw [multiline_block_forwarded_unless_command cfg0 ["multiline", "END"] [] "multiline"
    (by decide) (by decide) (by decide) (by decide)]
  decide

/-- C2 counterexample: a multiline capture consisting of only the sentinel
yields the empty message, which the state machine routes to the
invalid-input branch — no send attempt is made. -/
theorem empty_multiline_block_hits_invalid_branch :
    flowStep cfg0 ⟨true, true⟩ ["END"] = .next ⟨true, false⟩ [] [.invalidNotice] := by
  decide

/-- C2 amended: an empty multiline capture is mapped to the invalid-input
branch (an invalid-input notice, no delivery attempt), exactly like an
empty single-line input. -/
theorem empty_multiline_capture_is_invalid
    (cfg : FlowConfig) (input rest : List String)
    (hcap : get_multiline_message input = some ("", rest)) :
    flowStep cfg ⟨true, true⟩ input = .next ⟨true, false⟩ rest [.invalidNotice] := by
  rw [flowStep_as_flowBody cfg ⟨true, true⟩ input rfl]
  unfold flowBody
  simp only [hcap, Bool.true_eq_false, if_false, reduceIte]
  exact dispatch_empty_message cfg ⟨true, false⟩ rest

/-- C2 amended witness: a capture of one whitespace line strips to the
empty message and is routed to the invalid branch. -/
theorem empty_multiline_capture_is_invalid_witness :
    get_multiline_message ["   ", "END"] = some ("", []) ∧
    flowStep cfg0 ⟨true, true⟩ ["   ", "END"] = .next ⟨true, false⟩ [] [.invalidNotice] :=
  ⟨by decide, empty_multiline_capture_is_invalid cfg0 ["   ", "END"] [] (by decide)⟩

/-- C8: when the greeting transport call fails, the failure is logged
(`errorStartFailed`) yet the iteration continues exactly as a started
session would on the same input (`conversation_started` is set); a started
session never re-runs the greeting, no continuing iteration emits a
greeting event, and a started session only becomes un-started again by
consuming a `newchat` command. -/
theorem failed_greeting_session_still_starts
    (cfg : FlowConfig) (e : String) (m : Bool) (input : List String)
    (hfail : cfg.sendNew = .connFailure e ∨ cfg.sendNew = .otherFailure e) :
    flowStep cfg ⟨false, m⟩ input =
      prependEvents [.startConversation, .errorStartFailed e]
        (flowBody cfg ⟨true, m⟩ input) ∧
    (∀ s input2, s.conversation_started = true →
      flowStep cfg s input2 = flowBody cfg s input2) ∧
    (∀ s input2 s2 rest2 evs, flowBody cfg s input2 = .next s2 rest2 evs →
      Event.startConversation ∉ evs) ∧
    (∀ s input2 s2 rest2 evs, s.conversation_started = true →
      flowBody cfg s input2 = .next s2 rest2 evs → s2.conversation_started = false →
      ∃ message rest3, readLogical s input2 = some (message, rest3) ∧
        pyLower message = "newchat") := by
  refine ⟨?_, ?_, ?_, ?_⟩
  · rcases hfail with hf | hf <;> simp [flowStep, start_new_conversation, hf]
  · intro s input2 hc
    exact flowStep_as_flowBody cfg s input2 hc
  · intro s input2 s2 rest2 evs h
    unfold flowBody at h
    by_cases hm : s.multiline_mode = false
    · rw [if_pos hm] at h
      cases input2 with
      | nil => simp at h
      | cons line rest =>
        by_cases ht : pyLower (get_message line) = "multiline"
        · simp only [ht, if_true, StepOut.next.injEq, reduceIte] at h
          rw [← h.2.2]; simp
        · simp only [ht, if_false, reduceIte] at h
          exact startConversation_notin_dispatch cfg s (get_message line) rest s2 rest2 evs h
    · rw [if_neg hm] at h
      cases hg : get_multiline_message input2 with
      | none => rw [hg] at h; simp at h
      | some p =>
        rw [hg] at h
        obtain ⟨message, rest⟩ := p
        exact startConversation_notin_dispatch cfg { s with multiline_mode := false }
          message rest s2 rest2 evs h
  · intro s input2 s2 rest2 evs hstart h hs2
    unfold flowBody at h
    by_cases hm : s.multiline_mode = false
    · rw [if_pos hm] at h
      cases input2 with
      | nil => simp at h
      | cons line rest =>
        by_cases ht : pyLower (get_message line) = "multiline"
        · simp only [ht, if_true, StepOut.next.injEq, reduceIte] at h
          rw [← h.1] at hs2
          simp only [hstart] at hs2
          exact Bool.noConfusion hs2
        · simp only [ht, if_false, reduceIte] at h
          rcases dispatch_next_state cfg s (get_message line) rest s2 rest2 evs h with h1 | h1
          · subst h1
            rw [hstart] at hs2
            exact Bool.noConfusion hs2
          · exact ⟨get_message line, rest, by simp [readLogical, hm], h1.2⟩
    · rw [if_neg hm] at h
      cases hg : get_multiline_message input2 with
      | none => rw [hg] at h; simp at h
      | some p =>
        rw [hg] at h
        obtain ⟨message, rest⟩ := p
        rcases dispatch_next_state cfg { s with multiline_mode := false } message rest
            s2 rest2 evs h with h1 | h1
        · subst h1
          simp only [hstart] at hs2
          exact Bool.noConfusion hs2
        · exact ⟨message, rest, by simp [readLogical, hm, hg], h1.2⟩

/-- C8 witness: a greeting that raises is logged and the session proceeds
to deliver the next typed message normally. -/
theorem failed_greeting_session_still_starts_witness :
    flowStep ⟨.connFailure "boom", fun _ _ => .ok (.dict [("message", "r")]), 3⟩
        ⟨false, false⟩ ["hi"] =
      .next ⟨true, false⟩ []
        [.startConversation, .errorStartFailed "boom", .deliver "hi", .renderMessage "r"] :=
  ((failed_greeting_session_still_starts
      ⟨.connFailure "boom", fun _ _ => .ok (.dict [("message", "r")]), 3⟩
      "boom" false ["hi"] (Or.inl rfl)).1).trans (by decide)

end Aibot
